import Mathlib

/-!
Verification development for the AIrism-Radar media acquisition pipeline
(`src/app.py`).  The Python functions are embedded shallowly: external
capabilities (headless rendering, HTTP HEAD, the specialized video fetcher)
become oracle fields of an `Env` structure, and each Python function becomes
a Lean function over those oracles.  Machine-level details (sockets, disk)
are out of scope; string and list manipulation is modelled exactly.
-/

namespace AirismRadar

/-! ### Python string primitives

The code uses `in` (substring test), `.lower()`, `.split(sep)` with a
one-character separator, `.strip()`, `.startswith`, and `int(...)`.  Each is
modelled on `List Char` so that every definition reduces in the kernel. -/

/-- Boolean test that the character list `p` occurs at the start of `l`. -/
def leadsWith : List Char → List Char → Bool
  | [], _ => true
  | _ :: _, [] => false
  | p :: ps, c :: cs => p == c && leadsWith ps cs

/-- Boolean substring test on character lists: `hasSub pat s` holds when
`pat` occurs contiguously inside `s`. -/
def hasSub (pat : List Char) : List Char → Bool
  | [] => pat.isEmpty
  | c :: cs => leadsWith pat (c :: cs) || hasSub pat cs

/-- Models Python `pat in s` for strings (exact substring containment). -/
def strContains (s pat : String) : Bool := hasSub pat.data s.data

/-- Models Python `s.startswith(pat)`. -/
def pyStartsWith (s pat : String) : Bool := leadsWith pat.data s.data

/-- Models Python `s.lower()` (the URLs handled by the code are ASCII). -/
def pyLower (s : String) : String := ⟨s.data.map Char.toLower⟩

/-- Models Python `s.split(sep)` for a one-character separator: the result
is never empty, and splitting the empty string yields `[""]`. -/
def pySplitChar (sep : Char) : List Char → List (List Char)
  | [] => [[]]
  | c :: cs =>
    let r := pySplitChar sep cs
    if c == sep then [] :: r else (c :: r.headD []) :: r.tail

/-- String wrapper for `pySplitChar`. -/
def pySplit (sep : Char) (s : String) : List String :=
  (pySplitChar sep s.data).map fun cs => ⟨cs⟩

/-- ASCII whitespace recognised by Python `str.strip()` on header values. -/
def isSpaceChar (c : Char) : Bool :=
  c == ' ' || c == '\t' || c == '\n' || c == '\r'

/-- Models Python `s.strip()` for ASCII input. -/
def pyStrip (s : String) : String :=
  ⟨((s.data.dropWhile isSpaceChar).reverse.dropWhile isSpaceChar).reverse⟩

/-- Digit-sequence value, little helper for `pyInt?`. -/
def digitsVal (cs : List Char) : Nat :=
  cs.foldl (fun n c => 10 * n + (c.toNat - '0'.toNat)) 0

/-- Models Python `int(s)` as a partial function: optional surrounding
whitespace, an optional sign, then one or more decimal digits; any other
shape raises `ValueError`, modelled as `none`.  (Underscore digit grouping,
which the code never feeds in, is not modelled.) -/
def pyInt? (s : String) : Option Int :=
  let t := (pyStrip s).data
  let signDigits : Int × List Char :=
    match t with
    | '-' :: rest => (-1, rest)
    | '+' :: rest => (1, rest)
    | l => (1, l)
  if signDigits.2 ≠ [] ∧ signDigits.2.all Char.isDigit then
    some (signDigits.1 * (digitsVal signDigits.2 : Int))
  else none

/-! ### urllib.parse.urlparse, restricted to the fields the code reads -/

/-- The two components of a parsed URL that `app.py` ever reads. -/
structure UrlParts where
  netloc : String
  path : String
  deriving Repr, DecidableEq

/-- Finds the first `://` in the character list and returns what follows. -/
def dropThroughSep : List Char → Option (List Char)
  | [] => none
  | c :: cs =>
    if leadsWith [':', '/', '/'] (c :: cs) then some (cs.drop 2)
    else dropThroughSep cs

/-- Splits a post-scheme URL remainder into the network location (up to the
first of `/`, `?`, `#`) and the rest. -/
def netlocSplit : List Char → List Char × List Char
  | [] => ([], [])
  | c :: cs =>
    if c == '/' || c == '?' || c == '#' then ([], c :: cs)
    else
      let r := netlocSplit cs
      (c :: r.1, r.2)

/-- Keeps the path part: everything before the query or fragment. -/
def pathTake : List Char → List Char
  | [] => []
  | c :: cs => if c == '?' || c == '#' then [] else c :: pathTake cs

/-- Modelled from Python `urllib.parse.urlparse` (not repository code),
restricted to the `netloc` and `path` fields the repository reads: the
netloc is what follows `scheme://` up to the first `/`, `?` or `#`, and the
path runs from there to the query or fragment; a URL without `://` has an
empty netloc and is all path. -/
def urlparse (url : String) : UrlParts :=
  match dropThroughSep url.data with
  | some rest =>
    let nr := netlocSplit rest
    { netloc := ⟨nr.1⟩, path := ⟨pathTake nr.2⟩ }
  | none => { netloc := "", path := ⟨pathTake url.data⟩ }

/-! ### Platform detection (`detect_platform`, app.py lines 28-53) -/

/-- Oracle for one headless-rendering session used by the meta-tag sniff:
whether navigation succeeds, and which of the two metadata markers the
rendered page carries. -/
structure RenderEnv where
  gotoOk : Bool
  fbMeta : Bool
  ytMeta : Bool
  deriving Repr, DecidableEq

/-- Embeds `detect_platform`: hostname substring rules first (`facebook.com`,
then `youtube.com`/`youtu.be`), then the rendered meta-tag sniff; a failed
navigation is swallowed and every non-match falls through to `None`. -/
def detect_platform (render : RenderEnv) (url : String) : Option String :=
  let domain := pyLower (urlparse url).netloc
  if strContains domain "facebook.com" then some "facebook"
  else if strContains domain "youtube.com" || strContains domain "youtu.be" then
    some "youtube"
  else if render.gotoOk && render.fbMeta then some "facebook"
  else if render.gotoOk && render.ytMeta then some "youtube"
  else none

/-! ### Media-type classification (app.py lines 58-80) -/

/-- Embeds `head_content_type`: the oracle value `hdr` is the raw
`Content-Type` header for the URL (`none` when the HEAD request fails or the
header is absent).  A present, non-empty header is cut at the first `;`,
stripped and lowercased; an empty header is falsy in Python and falls
through to `None`. -/
def head_content_type (hdr : Option String) : Option String :=
  match hdr with
  | some ct => if ct ≠ "" then some (pyLower (pyStrip ((pySplit ';' ct).headD ""))) else none
  | none => none

/-- Extension part of `os.path.splitext` (Python stdlib, not repository
code): the suffix of the basename from its last dot, provided some non-dot
character of the basename comes before that dot. -/
def splitextExtension (p : String) : String :=
  let base := (pySplitChar '/' p.data).getLastD []
  let dotIdxs := (List.range base.length).filter fun i => base.getD i ' ' == '.'
  match dotIdxs.getLast? with
  | none => ""
  | some i => if (base.take i).any (fun c => c ≠ '.') then ⟨base.drop i⟩ else ""

/-- Embeds `get_media_type_from_url`, with `header` the HEAD oracle: a
usable `image/...` or `video/...` content type decides; otherwise the
lowercased path extension is matched against the two fixed allow-lists, and
anything else classifies as `None`. -/
def get_media_type_from_url (header : String → Option String) (url : String) :
    Option String :=
  let mime := head_content_type (header url)
  let fromMime : Option String :=
    match mime with
    | some m =>
      if m ≠ "" && pyStartsWith m "image/" then some "image"
      else if m ≠ "" && pyStartsWith m "video/" then some "video"
      else none
    | none => none
  match fromMime with
  | some t => some t
  | none =>
    let ext := pyLower (splitextExtension (urlparse url).path)
    if ext ∈ [".jpg", ".jpeg", ".png", ".gif"] then some "image"
    else if ext ∈ [".mp4", ".mov", ".mkv", ".avi"] then some "video"
    else none

/-! ### Page scraping (`scrape_media_urls`, app.py lines 85-140) -/

/-- Oracle for one scraping session: the `src` attributes of the elements
matched by each of the three selector groups, in DOM order (`none` for an
element with no `src` attribute). -/
structure PageEnv where
  videoSrcs : List (Option String)
  vcImageSrcs : List (Option String)
  scontentImageSrcs : List (Option String)

/-- The per-group collection filter: `if src and "fbcdn.net" in src`, i.e.
a present, non-empty `src` containing the CDN fragment. -/
def srcFilter (srcs : List (Option String)) : List String :=
  srcs.filterMap fun s? =>
    match s? with
    | some s => if s ≠ "" && strContains s "fbcdn.net" then some s else none
    | none => none

/-- The concatenation of the three selector groups in the code's order:
videos, marker-flagged images, `scontent` images. -/
def collectMediaLinks (pg : PageEnv) : List String :=
  srcFilter pg.videoSrcs ++ srcFilter pg.vcImageSrcs ++ srcFilter pg.scontentImageSrcs

/-- The dedup loop at the end of `scrape_media_urls`: walk the collected
list, keep a `seen` set (modelled as a list queried by membership) and
append first occurrences to `unique_links`. -/
def dedupLoop : List String → List String → List String → List String
  | [], _, unique => unique
  | m :: rest, seen, unique =>
    if seen.contains m then dedupLoop rest seen unique
    else dedupLoop rest (m :: seen) (unique ++ [m])

/-- The scraper's dedup step applied to a collected candidate list. -/
def scrape_dedup (links : List String) : List String := dedupLoop links [] []

/-- Embeds `scrape_media_urls`: collect the three selector groups in order,
then deduplicate keeping first occurrences. -/
def scrape_media_urls (pg : PageEnv) : List String :=
  scrape_dedup (collectMediaLinks pg)

/-- Specification-side dedup, written from the spec's words: keep the first
occurrence of each string, preserving first-seen order.  Used to check the
code's accumulator loop against the spec (claim C6). -/
def dedupSpecFirstOccurrence : List String → List String
  | [] => []
  | a :: t => a :: dedupSpecFirstOccurrence (t.filter fun x => x ≠ a)
termination_by l => l.length
decreasing_by
  simp only [List.length_cons]
  exact Nat.lt_succ_of_le (List.length_filter_le _ _)

/-! ### Specialized video fetch (`download_with_ytdlp`, app.py lines 169-211) -/

/-- The domain tag: `urlparse(url).netloc.lower().split('.')[-2]`.  Python
raises `IndexError` when the hostname has fewer than two dot-separated
components; that case is `none`. -/
def ytdlpDomainTag (url : String) : Option String :=
  (pySplit '.' (pyLower (urlparse url).netloc)).reverse.get? 1

/-- Models `pathlib.Path.stem` (Python stdlib): the name without its suffix,
where a suffix needs a dot that is neither the first nor the last character
of the name. -/
def pathStem (name : String) : String :=
  let cs := name.data
  let dotIdxs := (List.range cs.length).filter fun i => cs.getD i ' ' == '.'
  match dotIdxs.getLast? with
  | none => name
  | some i => if 0 < i ∧ i + 1 < cs.length then ⟨cs.take i⟩ else name

/-- The files matched by the glob `f"{domain}_*"` over the basenames already
present in the save directory. -/
def ytdlpExistingFiles (existing : List String) (domain : String) : List String :=
  existing.filter fun f => pyStartsWith f (domain ++ "_")

/-- The `nums` list: for each matched file, `int(f.stem.split('_')[-1])`,
skipping entries whose last underscore segment is not an integer. -/
def parsedIndices (existing : List String) (domain : String) : List Int :=
  (ytdlpExistingFiles existing domain).filterMap fun f =>
    pyInt? ((pySplit '_' (pathStem f)).getLastD "")

/-- The `next_num` computation: `max(nums) + 1` when any numeric index
exists, else 1 (both when no file matches the glob and when none of the
matches parses). -/
def ytdlpNextNum (existing : List String) (domain : String) : Int :=
  if ytdlpExistingFiles existing domain ≠ [] then
    match parsedIndices existing domain with
    | [] => 1
    | n :: rest => rest.foldl max n + 1
  else 1

/-- The `ydl_opts` dict literal exactly as written in the code, as the
sequence of key/value insertions: the `outtmpl` key is written twice (lines
191-192).  Non-string option values are rendered with their Python literal
spelling; templates are modelled as basenames (`str(save_dir / name)` only
prepends the fixed directory). -/
def ydl_opts_entries (domain : String) (nextNum : Int) : List (String × String) :=
  [("outtmpl", domain ++ "_temp.%(ext)s"),
   ("outtmpl", domain ++ "_" ++ toString nextNum ++ ".%(ext)s"),
   ("format", "bestvideo[ext=mp4]+bestaudio[ext=m4a]/best[ext=mp4]"),
   ("merge_output_format", "mp4"),
   ("quiet", "False"),
   ("restrictfilenames", "True")]

/-- Python dict-literal semantics for a key: the value of the LAST insertion
of that key wins. -/
def pyDictGet (entries : List (String × String)) (k : String) : Option String :=
  ((entries.filter fun e => e.1 == k).getLast?).map Prod.snd

/-- Worker for `renderTmpl`: scans the template; a positive skip counter
consumes the tail of an already-matched `%(ext)s` occurrence. -/
def renderTmplAux (ext : String) : Nat → List Char → List Char
  | _, [] => []
  | Nat.succ k, _ :: cs => renderTmplAux ext k cs
  | 0, c :: cs =>
    if leadsWith "%(ext)s".data (c :: cs) then
      ext.data ++ renderTmplAux ext 6 cs
    else c :: renderTmplAux ext 0 cs

/-- Substitutes yt-dlp's `%(ext)s` template field, the only field the code
uses, to obtain the filename yt-dlp actually writes. -/
def renderTmpl (ext : String) (tmpl : List Char) : List Char :=
  renderTmplAux ext 0 tmpl

/-- The filesystem effect of one `download_with_ytdlp` call. -/
structure YtdlpRun where
  written : String
  returned : String
  renamed : Bool
  deriving Repr, DecidableEq

/-- Embeds `download_with_ytdlp` for a given directory listing and reported
container extension: the template handed to yt-dlp is whatever the dict
gives for `outtmpl`; the function then renames `{domain}_temp.{ext}` to the
numbered name only if such a file exists, and returns the numbered name. -/
def download_with_ytdlp_run (existing : List String) (url ext : String) :
    Option YtdlpRun :=
  (ytdlpDomainTag url).map fun domain =>
    let nextNum := ytdlpNextNum existing domain
    let tmpl := (pyDictGet (ydl_opts_entries domain nextNum) "outtmpl").getD ""
    let written : String := ⟨renderTmpl ext tmpl.data⟩
    let finalName := domain ++ "_" ++ toString nextNum ++ "." ++ ext
    let tempName := domain ++ "_temp." ++ ext
    { written := written,
      returned := finalName,
      renamed := (written :: existing).contains tempName }

/-- The basename `download_with_ytdlp` returns for a URL, directory listing
and reported extension. -/
def download_with_ytdlp_basename (existing : List String) (url ext : String) :
    Option String :=
  (download_with_ytdlp_run existing url ext).map YtdlpRun.returned

/-! ### Photo index (`get_photo_index`, app.py lines 213-220) -/

/-- Embeds `get_photo_index`: split the URL path on `/`; when `"photo"` is
among the segments, `int()` of the LAST segment (1 on `ValueError`), else
1. -/
def get_photo_index (url : String) : Int :=
  let parts := pySplit '/' (urlparse url).path
  if parts.contains "photo" then
    match pyInt? (parts.getLastD "") with
    | some n => n
    | none => 1
  else 1

/-! ### The orchestrator (`download_media`, app.py lines 225-295) -/

/-- Destination directory of a download (`IMAGE_DIR` or `VIDEO_DIR`). -/
inductive MediaDir where
  | images
  | videos
  deriving Repr, DecidableEq

/-- Observable outcome of one `download_media` call: the Python `None`
return, a delegation to `download_with_ytdlp`, a delegation of one chosen
candidate URL to `download_with_requests`, or an uncaught
`UnboundLocalError` escaping to the caller. -/
inductive DResult where
  | noFile
  | viaYtdlp (dir : MediaDir)
  | viaRequests (candidate : String) (dir : MediaDir)
  | unboundLocal
  deriving Repr, DecidableEq

/-- Oracle bundle for one `download_media` call: the rendering session used
by platform detection, the rendering session used by scraping, the HEAD
content-type oracle, and whether the specialized video fetch succeeds. -/
structure Env where
  render : RenderEnv
  page : PageEnv
  header : String → Option String
  ytdlpOk : Bool

/-- The Facebook URL-shape test (app.py line 244): a video-indicating path
segment, or a `story_fbid` fragment anywhere in the lowercased URL. -/
def fbWatchShaped (url : String) : Bool :=
  let pl := pyLower (urlparse url).path
  (strContains pl "/watch" || strContains pl "/reel" ||
   strContains pl "/videos" || strContains pl "/stories") ||
  strContains (pyLower url) "story_fbid"

/-- The YouTube branch (app.py lines 231-237): specialized fetch, no
scraping fallback. -/
def youtubeBranch (env : Env) : DResult :=
  if env.ytdlpOk then .viaYtdlp .videos else .noFile

/-- The Facebook watch/reel/videos/stories branch (app.py lines 244-261):
specialized fetch first; on failure scrape, prefer the first video, then
the first image, else `None`. -/
def fbWatchBranch (env : Env) : DResult :=
  if env.ytdlpOk then .viaYtdlp .videos
  else
    let media_links := scrape_media_urls env.page
    if media_links ≠ [] then
      let vids := media_links.filter fun m =>
        get_media_type_from_url env.header m == some "video"
      let imgs := media_links.filter fun m =>
        get_media_type_from_url env.header m == some "image"
      if vids ≠ [] then .viaRequests (vids.headD "") .videos
      else if imgs ≠ [] then .viaRequests (imgs.headD "") .images
      else .noFile
    else .noFile

/-- The Facebook photo/feed branch (app.py lines 263-280), with the code's
exact indentation: `index` is assigned only under `if imgs:`, while the
range test on `index` sits OUTSIDE that guard, so when no candidate
classifies as video or image the range test reads an unassigned local and
raises `UnboundLocalError`. -/
def fbPhotoBranch (env : Env) (url : String) : DResult :=
  let media_links := scrape_media_urls env.page
  if media_links ≠ [] then
    let vids := media_links.filter fun m =>
      get_media_type_from_url env.header m == some "video"
    let imgs := media_links.filter fun m =>
      get_media_type_from_url env.header m == some "image"
    if vids ≠ [] then .viaRequests (vids.headD "") .videos
    else if imgs ≠ [] then
      let index : Int := get_photo_index url - 1
      if 0 ≤ index ∧ index < (imgs.length : Int) then
        .viaRequests (imgs.getD index.toNat "") .images
      else .viaRequests (imgs.headD "") .images
    else .unboundLocal
  else .noFile

/-- The generic-platform branch (app.py lines 283-295): scrape, and place
the first candidate by the homogeneity of the candidate types, falling back
to the first candidate's own type for mixed sets. -/
def genericBranch (env : Env) : DResult :=
  let media_links := scrape_media_urls env.page
  if media_links = [] then .noFile
  else
    let first_type := get_media_type_from_url env.header (media_links.headD "")
    if media_links.all fun l => get_media_type_from_url env.header l == some "image" then
      .viaRequests (media_links.headD "") .images
    else if media_links.all fun l => get_media_type_from_url env.header l == some "video" then
      .viaRequests (media_links.headD "") .videos
    else
      .viaRequests (media_links.headD "")
        (if first_type == some "image" then .images else .videos)

/-- Embeds `download_media`: platform gate, then per-platform dispatch; the
final scrape-and-download block is the fall-through for any platform other
than youtube/facebook. -/
def download_media (env : Env) (url : String) : DResult :=
  match detect_platform env.render url with
  | none => .noFile
  | some platform =>
    if platform = "youtube" then youtubeBranch env
    else if platform = "facebook" then
      if fbWatchShaped url then fbWatchBranch env else fbPhotoBranch env url
    else genericBranch env

/-- `download_media` with the generic fall-through replaced by a bare null
result; proving it equal to `download_media` shows the generic branch is
dead code (claim C10). -/
def download_media_no_generic (env : Env) (url : String) : DResult :=
  match detect_platform env.render url with
  | none => .noFile
  | some platform =>
    if platform = "youtube" then youtubeBranch env
    else if platform = "facebook" then
      if fbWatchShaped url then fbWatchBranch env else fbPhotoBranch env url
    else .noFile

/-! ### Concrete scenario environments used by witnesses and failing inputs -/

/-- A Facebook photo-shaped URL (path has no watch/reel/videos/stories
segment and no story_fbid). -/
def c1Url : String := "https://www.facebook.com/someuser/photo/3"

/-- An environment in which scraping that URL finds exactly one candidate
(an extensionless CDN blob) and the HEAD request yields no content type, so
the candidate classifies as neither video nor image. -/
def c1Env : Env where
  render := ⟨true, false, false⟩
  page := ⟨[], [], [some "https://scontent.xxx.fbcdn.net/v/blob"]⟩
  header := fun _ => none
  ytdlpOk := true

/-- An environment whose rendering finds neither metadata marker. -/
def c9Env : Env where
  render := ⟨true, false, false⟩
  page := ⟨[], [], []⟩
  header := fun _ => none
  ytdlpOk := true

/-- Five image candidates for the C5 witness, scraped for a photo URL with
index 3. -/
def c5EnvFive : Env where
  render := ⟨true, false, false⟩
  page := ⟨[],
    [some "https://scontent.xx.fbcdn.net/img1.jpg",
     some "https://scontent.xx.fbcdn.net/img2.jpg"],
    [some "https://scontent.xx.fbcdn.net/img3.jpg",
     some "https://scontent.xx.fbcdn.net/img4.jpg",
     some "https://scontent.xx.fbcdn.net/img5.jpg"]⟩
  header := fun _ => none
  ytdlpOk := true

/-- One image candidate for the out-of-range half of the C5 witness. -/
def c5EnvOne : Env where
  render := ⟨true, false, false⟩
  page := ⟨[], [some "https://scontent.xx.fbcdn.net/img1.jpg"], []⟩
  header := fun _ => none
  ytdlpOk := true

/-- A candidate set holding one video and one image, scraped for a
photo-shaped facebook URL. -/
def c7Env : Env where
  render := ⟨true, false, false⟩
  page := ⟨[some "https://video-arn2-1.xx.fbcdn.net/v/clip.mp4"], [],
    [some "https://scontent.xx.fbcdn.net/p1.jpg"]⟩
  header := fun _ => none
  ytdlpOk := true

/-! ### Shared helper lemmas -/

/-- Every run of `detect_platform` yields `None`, `"facebook"` or
`"youtube"` — the string checks are the only sources of a platform tag. -/
theorem detect_platform_mem (r : RenderEnv) (url : String) :
    detect_platform r url = none ∨ detect_platform r url = some "facebook" ∨
      detect_platform r url = some "youtube" := by
  unfold detect_platform
  by_cases h1 : strContains (pyLower (urlparse url).netloc) "facebook.com" = true
  · simp [h1]
  · by_cases h2 : (strContains (pyLower (urlparse url).netloc) "youtube.com" ||
        strContains (pyLower (urlparse url).netloc) "youtu.be") = true
    · simp [h1, h2]
    · by_cases h3 : (r.gotoOk && r.fbMeta) = true
      · simp [h1, h2, h3]
      · by_cases h4 : (r.gotoOk && r.ytMeta) = true <;> simp [h1, h2, h3, h4]

/-- Dispatch: a facebook-platform, non-watch-shaped URL runs the photo/feed
branch. -/
theorem download_media_photo_dispatch (env : Env) (url : String)
    (hfb : detect_platform env.render url = some "facebook")
    (hshape : fbWatchShaped url = false) :
    download_media env url = fbPhotoBranch env url := by
  unfold download_media
  rw [hfb]
  simp [hshape]

/-- Dispatch: a facebook-platform, watch-shaped URL runs the watch branch. -/
theorem download_media_watch_dispatch (env : Env) (url : String)
    (hfb : detect_platform env.render url = some "facebook")
    (hshape : fbWatchShaped url = true) :
    download_media env url = fbWatchBranch env := by
  unfold download_media
  rw [hfb]
  simp [hshape]

/-- A left fold of `max` lands in the seed-or-list. -/
theorem foldl_max_mem (rest : List Int) : ∀ n : Int, rest.foldl max n ∈ n :: rest := by
  induction rest with
  | nil => intro n; simp [List.foldl]
  | cons a t ih =>
    intro n
    simp only [List.foldl_cons]
    rcases List.mem_cons.1 (ih (max n a)) with h | h
    · rw [h]
      rcases max_choice n a with hm | hm <;> simp [hm]
    · simp [h]

/-- A left fold of `max` bounds the seed and every list element. -/
theorem le_foldl_max (rest : List Int) :
    ∀ n : Int, ∀ k, k ∈ n :: rest → k ≤ rest.foldl max n := by
  induction rest with
  | nil => intro n k hk; simp at hk; simp [hk]
  | cons a t ih =>
    intro n k hk
    simp only [List.foldl_cons]
    have hseed : max n a ≤ List.foldl max (max n a) t :=
      ih (max n a) (max n a) (List.mem_cons_self _ _)
    rcases List.mem_cons.1 hk with rfl | hk'
    · exact le_trans (le_max_left k a) hseed
    · rcases List.mem_cons.1 hk' with rfl | hk''
      · exact le_trans (le_max_right n k) hseed
      · exact ih (max n a) k (List.mem_cons_of_mem _ hk'')

/-- Separating the head of a freshly-seen element out of the dedup filter. -/
theorem filter_cons_seen (rest : List String) (m : String) (seen : List String) :
    (rest.filter fun x => !((m :: seen).contains x)) =
      (rest.filter fun x => !(seen.contains x)).filter fun x => x ≠ m := by
  induction rest with
  | nil => rfl
  | cons a t ih =>
    by_cases ham : a = m
    · subst ham
      by_cases has : a ∈ seen <;>
        simp [List.filter_cons, List.contains_cons, has, ih]
    · by_cases has : a ∈ seen <;>
        simp [List.filter_cons, List.contains_cons, ham, has, ih, Ne.symm ham]

/-- The dedup loop, for any starting `seen`/`unique` state, appends exactly
the first occurrences of the not-yet-seen elements. -/
theorem dedupLoop_eq (links : List String) :
    ∀ seen unique, dedupLoop links seen unique =
      unique ++ dedupSpecFirstOccurrence (links.filter fun m => !(seen.contains m)) := by
  induction links with
  | nil =>
    intro seen unique
    simp [dedupLoop, dedupSpecFirstOccurrence]
  | cons m rest ih =>
    intro seen unique
    by_cases h : m ∈ seen
    · rw [dedupLoop, if_pos (by simpa using h), ih, List.filter_cons]
      simp [h]
    · rw [dedupLoop, if_neg (by simpa using h), ih, List.filter_cons]
      have hnot : (!seen.contains m) = true := by simpa using h
      simp only [hnot, if_pos]
      rw [dedupSpecFirstOccurrence, filter_cons_seen]
      simp

/-- Membership in the specification dedup is membership in the source. -/
theorem mem_dedupSpec : ∀ (n : Nat) (l : List String), l.length ≤ n →
    ∀ x, x ∈ dedupSpecFirstOccurrence l → x ∈ l := by
  intro n
  induction n with
  | zero =>
    intro l hl x hx
    rw [List.length_eq_zero.1 (Nat.le_zero.1 hl)] at hx ⊢
    simp [dedupSpecFirstOccurrence] at hx
  | succ k ih =>
    intro l hl x hx
    cases l with
    | nil => simp [dedupSpecFirstOccurrence] at hx
    | cons a t =>
      rw [dedupSpecFirstOccurrence] at hx
      rcases List.mem_cons.1 hx with rfl | hx'
      · simp
      · have hlen : (t.filter fun y => y ≠ a).length ≤ k :=
          le_trans (List.length_filter_le _ _) (Nat.succ_le_succ_iff.1 (by simpa using hl))
        have := ih _ hlen x hx'
        exact List.mem_cons_of_mem a (List.mem_of_mem_filter this)

/-- The specification dedup never repeats an element. -/
theorem nodup_dedupSpec : ∀ (n : Nat) (l : List String), l.length ≤ n →
    (dedupSpecFirstOccurrence l).Nodup := by
  intro n
  induction n with
  | zero =>
    intro l hl
    rw [List.length_eq_zero.1 (Nat.le_zero.1 hl)]
    simp [dedupSpecFirstOccurrence]
  | succ k ih =>
    intro l hl
    cases l with
    | nil => simp [dedupSpecFirstOccurrence]
    | cons a t =>
      rw [dedupSpecFirstOccurrence]
      have hlen : (t.filter fun y => y ≠ a).length ≤ k :=
        le_trans (List.length_filter_le _ _) (Nat.succ_le_succ_iff.1 (by simpa using hl))
      refine List.nodup_cons.2 ⟨fun hmem => ?_, ih _ hlen⟩
      have := mem_dedupSpec _ _ (le_refl _) a hmem
      have := List.of_mem_filter this
      simp at this

/-! ### Claim C6 — scraper deduplication -/

/-- C6: the scraper's dedup step, applied to any collected candidate list,
removes duplicates by exact string equality keeping the first occurrence and
preserving first-seen order (it agrees with the first-occurrence
specification function and never repeats an element); in particular on
`[A, B, A, C, B]` it yields `[A, B, C]`. -/
theorem claim_c6_dedup_first_occurrence :
    (∀ links, scrape_dedup links = dedupSpecFirstOccurrence links) ∧
    (∀ links, (scrape_dedup links).Nodup) ∧
    scrape_dedup ["A", "B", "A", "C", "B"] = ["A", "B", "C"] := by
  have hmain : ∀ links, scrape_dedup links = dedupSpecFirstOccurrence links := by
    intro links
    rw [scrape_dedup, dedupLoop_eq]
    simp
  refine ⟨hmain, fun links => ?_, by decide⟩
  rw [hmain]
  exact nodup_dedupSpec links.length links (le_refl _)

/-! ### Claim C1 — the classification-miss crash -/

/-- C1 (refuted; code bug): on a Facebook photo-shaped URL whose scraped
candidate set is non-empty but classifies as neither video nor image,
`download_media` does NOT return `None`: the range test `0 <= index` at
app.py line 273 sits outside the `if imgs:` guard that assigns `index`
(line 271-272), so the call raises `UnboundLocalError` to the caller,
contradicting the never-raise claim. -/
theorem claim_c1_classification_miss_raises :
    scrape_media_urls c1Env.page ≠ [] ∧
    ((scrape_media_urls c1Env.page).filter fun m =>
      get_media_type_from_url c1Env.header m == some "video") = [] ∧
    ((scrape_media_urls c1Env.page).filter fun m =>
      get_media_type_from_url c1Env.header m == some "image") = [] ∧
    download_media c1Env c1Url = DResult.unboundLocal := by
  refine ⟨by decide, by decide, by decide, by decide⟩

/-! ### Claim C2 — the outtmpl handed to yt-dlp -/

/-- C2 (refuted; code bug): the `ydl_opts` dict literal writes `outtmpl`
twice (app.py lines 191-192), so by Python dict semantics the template
actually handed to yt-dlp is the FINAL numbered name, not the temporary
name; the written file is the numbered name directly and the temp-file
rename never fires (the rename block is dead code). -/
theorem claim_c2_outtmpl_bypasses_temp_name :
    (∀ (domain : String) (n : Int),
        pyDictGet (ydl_opts_entries domain n) "outtmpl" =
          some (domain ++ "_" ++ toString n ++ ".%(ext)s")) ∧
    pyDictGet (ydl_opts_entries "youtube" 1) "outtmpl" = some "youtube_1.%(ext)s" ∧
    "youtube_1.%(ext)s" ≠ "youtube_temp.%(ext)s" ∧
    download_with_ytdlp_run [] "https://www.youtube.com/watch?v=abc" "mp4" =
      some ⟨"youtube_1.mp4", "youtube_1.mp4", false⟩ := by
  refine ⟨fun domain n => ?_, by decide, by decide, by decide⟩
  simp [pyDictGet, ydl_opts_entries]

/-! ### Claim C4 — the photo-index parser -/

/-- C4 counterexample: for `/a/photo/3/b` the segment immediately following
the `photo` component is `3`, yet `get_photo_index` returns 1, because the
code parses the LAST path segment (`b`, non-numeric), not the segment after
`photo`. -/
theorem claim_c4_counterexample_last_segment :
    pySplit '/' (urlparse "https://www.facebook.com/a/photo/3/b").path =
      ["", "a", "photo", "3", "b"] ∧
    get_photo_index "https://www.facebook.com/a/photo/3/b" = 1 ∧
    (1 : Int) ≠ 3 := by
  refine ⟨by decide, by decide, by decide⟩

/-- C4 (amended): when the URL path contains a literal `photo` component,
`get_photo_index` returns the integer value of the LAST path segment
(1 when it is non-numeric) — which equals the segment following `photo`
exactly when `photo` is the second-to-last component — and returns 1 for
URLs without a `photo` component. -/
theorem claim_c4_photo_index_amended (url : String) :
    ((pySplit '/' (urlparse url).path).contains "photo" = true →
      get_photo_index url =
        (pyInt? ((pySplit '/' (urlparse url).path).getLastD "")).getD 1) ∧
    ((pySplit '/' (urlparse url).path).contains "photo" = false →
      get_photo_index url = 1) := by
  constructor
  · intro h
    simp only [get_photo_index, h, if_pos]
    cases hp : pyInt? ((pySplit '/' (urlparse url).path).getLastD "") <;>
      simp [hp, Option.getD]
  · intro h
    have h' : "photo" ∉ pySplit '/' (urlparse url).path := by simpa using h
    simp [get_photo_index, h']

/-- C4 witness: the amended description applied at a concrete photo URL. -/
theorem claim_c4_witness :
    (pySplit '/' (urlparse "https://www.facebook.com/pg/photo/7").path).contains
        "photo" = true ∧
    get_photo_index "https://www.facebook.com/pg/photo/7" = 7 := by
  refine ⟨by decide, ?_⟩
  rw [(claim_c4_photo_index_amended "https://www.facebook.com/pg/photo/7").1 (by decide)]
  decide

/-! ### Claim C8 — hostname rule for youtube -/

/-- C8 counterexample: a hostname can contain both `youtu.be` and
`facebook.com`; the facebook check runs first (app.py line 30), so such a
URL classifies as facebook, refuting the unrestricted "hostname contains
youtube.com or youtu.be implies youtube" claim. -/
theorem claim_c8_counterexample_facebook_precedence :
    strContains (pyLower (urlparse "https://youtu.be.facebook.com/v").netloc)
        "youtu.be" = true ∧
    detect_platform ⟨true, false, false⟩ "https://youtu.be.facebook.com/v" =
      some "facebook" ∧
    (some "facebook" : Option String) ≠ some "youtube" := by
  refine ⟨by decide, by decide, by decide⟩

/-- C8 (amended): for every URL whose hostname contains `youtube.com` or
`youtu.be` AND does not contain `facebook.com`, `detect_platform` returns
youtube for every possible rendering outcome — i.e. without consulting the
rendering fallback. -/
theorem claim_c8_youtube_hostname_amended (url : String) (r : RenderEnv)
    (hyt : strContains (pyLower (urlparse url).netloc) "youtube.com" = true ∨
      strContains (pyLower (urlparse url).netloc) "youtu.be" = true)
    (hfb : strContains (pyLower (urlparse url).netloc) "facebook.com" = false) :
    detect_platform r url = some "youtube" := by
  unfold detect_platform
  have h2 : (strContains (pyLower (urlparse url).netloc) "youtube.com" ||
      strContains (pyLower (urlparse url).netloc) "youtu.be") = true := by
    rcases hyt with h | h <;> simp [h]
  simp [hfb, h2]

/-- C8 witness: both youtube host shapes, under opposite rendering oracles,
classify as youtube. -/
theorem claim_c8_witness :
    detect_platform ⟨false, false, false⟩ "https://www.youtube.com/watch?v=dQ" =
      some "youtube" ∧
    detect_platform ⟨true, true, true⟩ "https://youtu.be/dQ" = some "youtube" :=
  ⟨claim_c8_youtube_hostname_amended _ _ (Or.inl (by decide)) (by decide),
   claim_c8_youtube_hostname_amended _ _ (Or.inr (by decide)) (by decide)⟩

/-! ### Claim C9 — unknown platform aborts before any strategy -/

/-- C9: for a URL whose hostname matches no platform substring and whose
rendering matches neither marker (or fails), `detect_platform` returns the
null platform and `download_media` returns the null result — for every
scraping, HEAD and fetch oracle, so no strategy is consulted. -/
theorem claim_c9_unknown_platform_null (env : Env) (url : String)
    (hfb : strContains (pyLower (urlparse url).netloc) "facebook.com" = false)
    (hyt : strContains (pyLower (urlparse url).netloc) "youtube.com" = false)
    (hybe : strContains (pyLower (urlparse url).netloc) "youtu.be" = false)
    (hrender : env.render.gotoOk = false ∨
      (env.render.fbMeta = false ∧ env.render.ytMeta = false)) :
    detect_platform env.render url = none ∧
    download_media env url = DResult.noFile := by
  have hdet : detect_platform env.render url = none := by
    unfold detect_platform
    rcases hrender with h | ⟨h1, h2⟩
    · simp [hfb, hyt, hybe, h]
    · simp [hfb, hyt, hybe, h1, h2]
  refine ⟨hdet, ?_⟩
  unfold download_media
  rw [hdet]

/-- C9 witness: a concrete unrecognized-host URL aborts with a null
result. -/
theorem claim_c9_witness :
    detect_platform c9Env.render "https://example.com/page" = none ∧
    download_media c9Env "https://example.com/page" = DResult.noFile :=
  claim_c9_unknown_platform_null c9Env "https://example.com/page"
    (by decide) (by decide) (by decide) (Or.inr ⟨rfl, rfl⟩)

/-! ### Claim C10 — the generic branch is dead code -/

/-- C10: `detect_platform` only ever produces the null platform, facebook
or youtube, and consequently `download_media` is extensionally equal to the
variant whose generic-platform branch is replaced by a bare null result:
the generic scrape-then-download block is unreachable. -/
theorem claim_c10_generic_branch_unreachable :
    (∀ (r : RenderEnv) (url : String),
        detect_platform r url = none ∨ detect_platform r url = some "facebook" ∨
          detect_platform r url = some "youtube") ∧
    (∀ (env : Env) (url : String),
        download_media env url = download_media_no_generic env url) := by
  refine ⟨detect_platform_mem, fun env url => ?_⟩
  unfold download_media download_media_no_generic
  rcases detect_platform_mem env.render url with h | h | h <;> rw [h] <;> simp

/-! ### Claim C3 — numbered naming of specialized-fetch output -/

/-- C3 counterexample: a YouTube URL through the `youtu.be` host classifies
as platform youtube, yet its fetch output carries the prefix `youtu` —
`netloc.split('.')[-2]` of `youtu.be` — so the file is `youtu_1.mp4`, not
the platform-tagged `youtube_1.mp4` the claim promises. -/
theorem claim_c3_counterexample_youtu_be :
    detect_platform ⟨true, false, false⟩ "https://youtu.be/dQw4w9W" = some "youtube" ∧
    download_with_ytdlp_basename [] "https://youtu.be/dQw4w9W" "mp4" =
      some "youtu_1.mp4" ∧
    "youtu_1.mp4" ≠ "youtube_1.mp4" := by
  refine ⟨by decide, by decide, by decide⟩

/-- C3 (amended): specialized-fetch output is named `{tag}_{N}.{ext}` where
`tag` is the second-to-last dot-component of the hostname — equal to the
platform tag for `facebook.com`/`youtube.com` hosts but `youtu` for
`youtu.be` — and N is one greater than the maximum numeric final
underscore-segment among existing `{tag}_` files (1 when none parses);
concretely, with `facebook_1.mp4` and `facebook_3.mp4` present the next
Facebook fetch is `facebook_4.mp4`. -/
theorem claim_c3_numbered_naming_amended :
    (∀ (existing : List String) (url ext domain : String),
        ytdlpDomainTag url = some domain →
        download_with_ytdlp_basename existing url ext =
          some (domain ++ "_" ++ toString (ytdlpNextNum existing domain) ++ "." ++ ext)) ∧
    (∀ (existing : List String) (domain : String),
        parsedIndices existing domain = [] → ytdlpNextNum existing domain = 1) ∧
    (∀ (existing : List String) (domain : String),
        parsedIndices existing domain ≠ [] →
        ∃ m, m ∈ parsedIndices existing domain ∧
          (∀ k ∈ parsedIndices existing domain, k ≤ m) ∧
          ytdlpNextNum existing domain = m + 1) ∧
    download_with_ytdlp_basename ["facebook_1.mp4", "facebook_3.mp4"]
      "https://www.facebook.com/someone/videos/123" "mp4" = some "facebook_4.mp4" ∧
    ytdlpDomainTag "https://www.youtube.com/watch?v=abc" = some "youtube" ∧
    ytdlpDomainTag "https://youtu.be/abc" = some "youtu" := by
  refine ⟨?_, ?_, ?_, by decide, by decide, by decide⟩
  · intro existing url ext domain h
    simp [download_with_ytdlp_basename, download_with_ytdlp_run, h]
  · intro existing domain h
    unfold ytdlpNextNum
    rw [h]
    split <;> rfl
  · intro existing domain h
    cases hpi : parsedIndices existing domain with
    | nil => exact absurd hpi h
    | cons n rest =>
      have hex : ytdlpExistingFiles existing domain ≠ [] := by
        intro h0
        apply h
        unfold parsedIndices
        rw [h0]
        rfl
      have hnext : ytdlpNextNum existing domain = rest.foldl max n + 1 := by
        unfold ytdlpNextNum
        rw [if_pos hex, hpi]
      refine ⟨rest.foldl max n, ?_, ?_, hnext⟩
      · exact foldl_max_mem rest n
      · intro k hk
        exact le_foldl_max rest n k hk

/-- C3 witness: the amended naming rule instantiated on the `facebook_1`/
`facebook_3` directory and on an empty index set. -/
theorem claim_c3_witness :
    download_with_ytdlp_basename ["facebook_1.mp4", "facebook_3.mp4"]
        "https://www.facebook.com/watch?v=9" "mp4" =
      some ("facebook" ++ "_" ++
        toString (ytdlpNextNum ["facebook_1.mp4", "facebook_3.mp4"] "facebook") ++
        "." ++ "mp4") ∧
    ytdlpNextNum ["nomatch.mp4"] "facebook" = 1 ∧
    (∃ m, m ∈ parsedIndices ["facebook_1.mp4", "facebook_3.mp4"] "facebook" ∧
      (∀ k ∈ parsedIndices ["facebook_1.mp4", "facebook_3.mp4"] "facebook", k ≤ m) ∧
      ytdlpNextNum ["facebook_1.mp4", "facebook_3.mp4"] "facebook" = m + 1) :=
  ⟨claim_c3_numbered_naming_amended.1 _ _ _ _ (by decide),
   claim_c3_numbered_naming_amended.2.1 _ _ (by decide),
   claim_c3_numbered_naming_amended.2.2.1 _ _ (by decide)⟩

/-! ### Claims C5 and C7 — candidate selection in the facebook branches -/

/-- In the photo/feed branch, when no candidate classifies as video and at
least one classifies as image, the branch picks an image by photo index,
falling back to the first image when the index is out of range. -/
theorem fbPhotoBranch_image_case (env : Env) (url : String)
    (hv : ((scrape_media_urls env.page).filter fun m =>
        get_media_type_from_url env.header m == some "video") = [])
    (himg : ((scrape_media_urls env.page).filter fun m =>
        get_media_type_from_url env.header m == some "image") ≠ []) :
    fbPhotoBranch env url =
      if 0 ≤ get_photo_index url - 1 ∧
          get_photo_index url - 1 <
            ((((scrape_media_urls env.page).filter fun m =>
                get_media_type_from_url env.header m == some "image").length : Int)) then
        DResult.viaRequests
          (((scrape_media_urls env.page).filter fun m =>
              get_media_type_from_url env.header m == some "image").getD
            (get_photo_index url - 1).toNat "") MediaDir.images
      else
        DResult.viaRequests
          (((scrape_media_urls env.page).filter fun m =>
              get_media_type_from_url env.header m == some "image").headD "")
          MediaDir.images := by
  have hml : scrape_media_urls env.page ≠ [] := by
    intro h0
    apply himg
    rw [h0]
    rfl
  unfold fbPhotoBranch
  simp [hml, hv, himg]

/-- C5: on the URL `.../photo/3`, with no video candidates, a length-5 image
candidate set selects zero-based index 2, and a length-1 image candidate set
falls back to the first image — a download in both cases, never a failure. -/
theorem claim_c5_photo_index_selection (env : Env) :
    ((((scrape_media_urls env.page).filter fun m =>
        get_media_type_from_url env.header m == some "video") = []) →
      (((scrape_media_urls env.page).filter fun m =>
        get_media_type_from_url env.header m == some "image").length = 5) →
      download_media env "https://www.facebook.com/pg/photo/3" =
        DResult.viaRequests
          (((scrape_media_urls env.page).filter fun m =>
              get_media_type_from_url env.header m == some "image").getD 2 "")
          MediaDir.images) ∧
    ((((scrape_media_urls env.page).filter fun m =>
        get_media_type_from_url env.header m == some "video") = []) →
      (((scrape_media_urls env.page).filter fun m =>
        get_media_type_from_url env.header m == some "image").length = 1) →
      download_media env "https://www.facebook.com/pg/photo/3" =
        DResult.viaRequests
          (((scrape_media_urls env.page).filter fun m =>
              get_media_type_from_url env.header m == some "image").headD "")
          MediaDir.images) := by
  have hdet : detect_platform env.render "https://www.facebook.com/pg/photo/3" =
      some "facebook" := rfl
  have hdisp := download_media_photo_dispatch env "https://www.facebook.com/pg/photo/3"
    hdet (by decide)
  have hidx : get_photo_index "https://www.facebook.com/pg/photo/3" = 3 := by decide
  constructor
  · intro hv h5
    have himg : ((scrape_media_urls env.page).filter fun m =>
        get_media_type_from_url env.header m == some "image") ≠ [] := by
      intro h0
      rw [h0] at h5
      simp at h5
    rw [hdisp, fbPhotoBranch_image_case env _ hv himg, hidx, h5]
    norm_num
    rfl
  · intro hv h1
    have himg : ((scrape_media_urls env.page).filter fun m =>
        get_media_type_from_url env.header m == some "image") ≠ [] := by
      intro h0
      rw [h0] at h1
      simp at h1
    rw [hdisp, fbPhotoBranch_image_case env _ hv himg, hidx, h1]
    norm_num

/-- C5 witness: with five images the third is downloaded; with one image the
index is out of range and the first is downloaded. -/
theorem claim_c5_witness :
    download_media c5EnvFive "https://www.facebook.com/pg/photo/3" =
      DResult.viaRequests "https://scontent.xx.fbcdn.net/img3.jpg" MediaDir.images ∧
    download_media c5EnvOne "https://www.facebook.com/pg/photo/3" =
      DResult.viaRequests "https://scontent.xx.fbcdn.net/img1.jpg" MediaDir.images := by
  constructor
  · rw [(claim_c5_photo_index_selection c5EnvFive).1 (by decide) (by decide)]
    decide
  · rw [(claim_c5_photo_index_selection c5EnvOne).2 (by decide) (by decide)]
    decide

/-- C7: in both facebook branches — the photo/feed branch, and the
watch-shaped branch once the specialized fetch has failed — any candidate
set containing a video-classified candidate leads to the FIRST video
candidate being downloaded into the videos directory, never an image. -/
theorem claim_c7_video_over_image (env : Env) (url : String)
    (hfb : detect_platform env.render url = some "facebook")
    (hv : ((scrape_media_urls env.page).filter fun m =>
        get_media_type_from_url env.header m == some "video") ≠ []) :
    (fbWatchShaped url = false →
      download_media env url =
        DResult.viaRequests
          (((scrape_media_urls env.page).filter fun m =>
              get_media_type_from_url env.header m == some "video").headD "")
          MediaDir.videos) ∧
    (fbWatchShaped url = true → env.ytdlpOk = false →
      download_media env url =
        DResult.viaRequests
          (((scrape_media_urls env.page).filter fun m =>
              get_media_type_from_url env.header m == some "video").headD "")
          MediaDir.videos) := by
  have hml : scrape_media_urls env.page ≠ [] := by
    intro h0
    apply hv
    rw [h0]
    rfl
  constructor
  · intro hshape
    rw [download_media_photo_dispatch env url hfb hshape]
    unfold fbPhotoBranch
    simp [hml, hv]
  · intro hshape hyt
    rw [download_media_watch_dispatch env url hfb hshape]
    unfold fbWatchBranch
    simp [hyt, hml, hv]

/-- C7 witness: with both a video and an image candidate present, the photo
branch downloads the video. -/
theorem claim_c7_witness :
    download_media c7Env "https://www.facebook.com/pg/photo/2" =
      DResult.viaRequests "https://video-arn2-1.xx.fbcdn.net/v/clip.mp4"
        MediaDir.videos := by
  rw [(claim_c7_video_over_image c7Env "https://www.facebook.com/pg/photo/2"
    (by decide) (by decide)).1 (by decide)]
  decide

end AirismRadar
